import Mathlib

/-!
Shallow embedding of the TrenchBroom vertex-tool state machine
(`src/Core/Source/Controller/VertexTool.cpp`), the CSG convex-merge command
dispatch (`src/common/src/View/MapFrame.cpp`) and the palette expansion
(`src/Core/Source/Model/Assets/Palette.cpp`), together with theorems settling
the spec claims about them.

Modelling conventions:
* External collaborators (the grid snapper, the brush geometry kernel's
  `performMove`/`movePosition`, the picker, the undo manager, the renderer)
  are passed in as function arguments or recorded as `Effect`s in an output
  trace, exactly at the points where the C++ calls out to them.
* `assert(...)` statements compile to nothing in release builds; each modelled
  operation therefore executes its body unconditionally (release semantics),
  and the asserted condition is captured separately as a `*Assert` predicate
  (true iff a debug build would survive the call).
* Machine floats (`Vec3f`) are modelled with exact integer components: all
  claims here are control-flow claims that depend only on vector addition and
  the zero test, never on rounding.
-/

/-- Modelled from the spec: `Vec3f` (Math.h is not under src/).  Only the
additive structure and the zero test (`null()`, "the delta is the zero
vector") are used by the embedded code. -/
structure Vec3 where
  x : Int
  y : Int
  z : Int
deriving DecidableEq, Repr

def Vec3.add (a b : Vec3) : Vec3 := ⟨a.x + b.x, a.y + b.y, a.z + b.z⟩

/-- Modelled from the spec: `Vec3f::null()` tests for the zero vector. -/
def Vec3.null (v : Vec3) : Bool := v.x == 0 && v.y == 0 && v.z == 0

def Vec3.zero : Vec3 := ⟨0, 0, 0⟩

/-- The only parts of `Model::Brush` the vertex tool reads: an identity (the
C++ holds a `Brush*`) and the `selected` flag consulted by
`brushesDidChange`. -/
structure Brush where
  id : Nat
  selected : Bool
deriving DecidableEq, Repr

/-- `Model::MoveResult` as returned by the brush geometry kernel's move
operations: the handle's new index (`-1` = no longer addressable) and whether
the brush actually moved. -/
structure MoveResult where
  index : Int
  moved : Bool
deriving DecidableEq, Repr

/-- `Model::Hit` as consumed by the tool: the owning brush, the handle index
(`VertexTool::index` returns `hit.index`), and the world-space hit point. -/
structure Hit where
  brush : Brush
  index : Int
  hitPoint : Vec3
deriving DecidableEq, Repr

/-- The tool state machine's states (`VertexTool.h`): INACTIVE, ACTIVE,
SELECTED, DRAGGING. -/
inductive ToolState where
  | INACTIVE
  | ACTIVE
  | SELECTED
  | DRAGGING
deriving DecidableEq, Repr

/-- Calls the tool makes into external collaborators (renderer figures, the
geometry kernel, the undo manager, the document's event sources), recorded in
order as an effect trace. -/
inductive Effect where
  | updateHandleFigure
  | updateSelectedHandleFigures (brush : Option Brush) (index : Int)
  | addFigure
  | removeFigure
  | performMove (brush : Brush) (index : Int) (delta : Vec3)
  | undoBegin (name : String)
  | undoEnd
  | addListeners
  | removeListeners
deriving DecidableEq, Repr

/-- The fields of `VertexTool` the embedded member functions touch.  Figure
pointers are modelled by their null-ness (`true` = non-NULL); colors and the
figures' geometric payloads live behind the renderer interface and appear only
as effects. -/
structure VertexTool where
  m_state : ToolState
  m_brush : Option Brush
  m_index : Int
  m_handleFigure : Bool
  m_selectedHandleFigure : Bool
  m_guideFigure : Bool
deriving DecidableEq, Repr

/-- `VertexTool::VertexTool`: initializes state INACTIVE, brush NULL, index
-1, all figure pointers NULL. -/
def VertexTool.init : VertexTool :=
  { m_state := ToolState.INACTIVE
    m_brush := none
    m_index := -1
    m_handleFigure := false
    m_selectedHandleFigure := false
    m_guideFigure := false }

/-- `VertexTool::deleteHandleFigure`: if the figure exists, remove it from the
renderer and null the pointer. -/
def VertexTool.deleteHandleFigure (t : VertexTool) : VertexTool × List Effect :=
  if t.m_handleFigure then
    ({ t with m_handleFigure := false }, [Effect.removeFigure])
  else
    (t, [])

/-- `VertexTool::createHandleFigure`: delete any existing figure, allocate a
new one (colors omitted: renderer-only), update it and add it to the
renderer. -/
def VertexTool.createHandleFigure (t : VertexTool) : VertexTool × List Effect :=
  let (t1, e1) := t.deleteHandleFigure
  ({ t1 with m_handleFigure := true },
    e1 ++ [Effect.updateHandleFigure, Effect.addFigure])

/-- `VertexTool::deleteSelectedHandleFigures`: remove and null the selected
handle figure and the guide figure, when present. -/
def VertexTool.deleteSelectedHandleFigures (t : VertexTool) : VertexTool × List Effect :=
  let (t1, e1) :=
    if t.m_selectedHandleFigure then
      ({ t with m_selectedHandleFigure := false }, [Effect.removeFigure])
    else (t, [])
  if t1.m_guideFigure then
    ({ t1 with m_guideFigure := false }, e1 ++ [Effect.removeFigure])
  else (t1, e1)

/-- `VertexTool::createSelectedHandleFigures`: delete any existing selected
figures, allocate the selected handle figure and guide figure (colors
omitted), update them from `*m_brush`/`m_index` and add them.  The C++
asserts `m_brush != NULL && m_index >= 0` first. -/
def VertexTool.createSelectedHandleFigures (t : VertexTool) : VertexTool × List Effect :=
  let (t1, e1) := t.deleteSelectedHandleFigures
  ({ t1 with m_selectedHandleFigure := true, m_guideFigure := true },
    e1 ++ [Effect.updateSelectedHandleFigures t.m_brush t.m_index,
           Effect.addFigure, Effect.addFigure])

/-- `VertexTool::brushesDidChange`: scan the notified brush list for a
selected brush; at the first one, refresh the aggregate matching the current
state, then break.  Asserts `m_state != INACTIVE`. -/
def VertexTool.brushesDidChange (t : VertexTool) (brushes : List Brush) : List Effect :=
  if brushes.any (fun b => b.selected) then
    (if t.m_state = ToolState.ACTIVE then [Effect.updateHandleFigure] else []) ++
    (if t.m_state = ToolState.SELECTED ∨ t.m_state = ToolState.DRAGGING then
      [Effect.updateSelectedHandleFigures t.m_brush t.m_index]
    else [])
  else []

/-- `VertexTool::selectionChanged`: refresh the aggregate matching the current
state, unconditionally.  Asserts `m_state != INACTIVE`. -/
def VertexTool.selectionChanged (t : VertexTool) : List Effect :=
  (if t.m_state = ToolState.ACTIVE then [Effect.updateHandleFigure] else []) ++
  (if t.m_state = ToolState.SELECTED ∨ t.m_state = ToolState.DRAGGING then
    [Effect.updateSelectedHandleFigures t.m_brush t.m_index]
  else [])

/-- Debug assertion of `brushesDidChange` / `selectionChanged`. -/
def VertexTool.notificationAssert (t : VertexTool) : Prop :=
  t.m_state ≠ ToolState.INACTIVE

/-- `VertexTool::activated`: create the handle figure, register the
brushes-did-change and selection listeners, enter ACTIVE.  Asserts
`m_state == INACTIVE`. -/
def VertexTool.activated (t : VertexTool) : VertexTool × List Effect :=
  let (t1, e1) := t.createHandleFigure
  ({ t1 with m_state := ToolState.ACTIVE }, e1 ++ [Effect.addListeners])

/-- Debug assertion of `activated`. -/
def VertexTool.activatedAssert (t : VertexTool) : Prop :=
  t.m_state = ToolState.INACTIVE

/-- `VertexTool::deactivated`: delete the handle figure, unregister the
listeners, enter INACTIVE.  Asserts `m_state != INACTIVE`.  Note: `m_brush`
and `m_index` are not touched. -/
def VertexTool.deactivated (t : VertexTool) : VertexTool × List Effect :=
  let (t1, e1) := t.deleteHandleFigure
  ({ t1 with m_state := ToolState.INACTIVE }, e1 ++ [Effect.removeListeners])

/-- Debug assertion of `deactivated`. -/
def VertexTool.deactivatedAssert (t : VertexTool) : Prop :=
  t.m_state ≠ ToolState.INACTIVE

/-- `VertexTool::leftMouseDown`: on a handle hit, record the hit's brush and
index, swap the unselected figure for the selected figures, enter SELECTED and
report handled; otherwise report not handled.  Asserts `m_state == ACTIVE`. -/
def VertexTool.leftMouseDown (hit : Option Hit) (t : VertexTool) :
    Bool × VertexTool × List Effect :=
  match hit with
  | some h =>
    let t1 := { t with m_brush := some h.brush, m_index := h.index }
    let (t2, e2) := t1.deleteHandleFigure
    let (t3, e3) := t2.createSelectedHandleFigures
    (true, { t3 with m_state := ToolState.SELECTED }, e2 ++ e3)
  | none => (false, t, [])

/-- Debug assertion of `leftMouseDown`. -/
def VertexTool.leftMouseDownAssert (t : VertexTool) : Prop :=
  t.m_state = ToolState.ACTIVE

/-- `VertexTool::leftMouseUp`: when SELECTED, tear down the selected figures,
rebuild the unselected figure, clear the brush reference and index, return to
ACTIVE and report handled; otherwise report not handled.  Asserts
`m_state == ACTIVE || m_state == SELECTED`. -/
def VertexTool.leftMouseUp (t : VertexTool) : Bool × VertexTool × List Effect :=
  if t.m_state = ToolState.SELECTED then
    let (t1, e1) := t.deleteSelectedHandleFigures
    let (t2, e2) := t1.createHandleFigure
    (true,
      { t2 with m_brush := none, m_index := -1, m_state := ToolState.ACTIVE },
      e1 ++ e2)
  else (false, t, [])

/-- Debug assertion of `leftMouseUp`. -/
def VertexTool.leftMouseUpAssert (t : VertexTool) : Prop :=
  t.m_state = ToolState.ACTIVE ∨ t.m_state = ToolState.SELECTED

/-- Result of `VertexTool::doBeginLeftDrag`: the returned boolean, the updated
tool, the `initialPoint` out-parameter (written only on success) and the
effect trace. -/
structure BeginDragResult where
  started : Bool
  tool : VertexTool
  initialPoint : Option Vec3
  effects : List Effect
deriving DecidableEq, Repr

/-- `VertexTool::doBeginLeftDrag`: with no handle hit, return false at once
(before the `m_state == SELECTED` assertion).  On a hit: record the hit's
brush, index and hit point, delete the unselected handle figure, open an undo
transaction named `undoName()` (a virtual of the concrete tool, passed here as
`undoName`), and enter DRAGGING. -/
def VertexTool.doBeginLeftDrag (undoName : String) (hit : Option Hit)
    (t : VertexTool) : BeginDragResult :=
  match hit with
  | none => { started := false, tool := t, initialPoint := none, effects := [] }
  | some h =>
    let t1 := { t with m_brush := some h.brush, m_index := h.index }
    let (t2, e2) := t1.deleteHandleFigure
    { started := true
      tool := { t2 with m_state := ToolState.DRAGGING }
      initialPoint := some h.hitPoint
      effects := e2 ++ [Effect.undoBegin undoName] }

/-- Debug assertion of `doBeginLeftDrag` (checked only after a hit). -/
def VertexTool.doBeginLeftDragAssert (t : VertexTool) : Prop :=
  t.m_state = ToolState.SELECTED

/-- Result of one `VertexTool::doLeftDrag` step: the returned boolean
(true = continue, false = abort), the updated tool, the `referencePoint`
in-out parameter on exit, and the effect trace. -/
structure DragStepResult where
  proceed : Bool
  tool : VertexTool
  referencePoint : Vec3
  effects : List Effect
deriving DecidableEq, Repr

/-- `VertexTool::doLeftDrag`: compute the handle's current position
(`movePosition`, a virtual of the concrete tool), ask the grid to snap
`curMousePoint - referencePoint` (`moveDelta`, with `worldBounds` absorbed
into the passed function), return true at once if the snapped delta is the
zero vector; otherwise run the move operation (`performMove`, a virtual of the
concrete tool), store its returned index into `m_index`, return false if that
index is -1, advance `referencePoint` by the delta when the operation reports
`moved`, refresh the selected-handle figures, and return true.
The C++ asserts `m_state == DRAGGING && m_brush != NULL && m_index != -1`; a
NULL `m_brush` would be dereferenced, which the model renders as an inert
result (unreachable when the asserted precondition holds). -/
def VertexTool.doLeftDrag (movePosition : Brush → Int → Vec3)
    (moveDelta : Vec3 → Vec3 → Vec3) (performMove : Brush → Int → Vec3 → MoveResult)
    (t : VertexTool) (curMousePoint referencePoint : Vec3) : DragStepResult :=
  match t.m_brush with
  | none =>
    { proceed := false, tool := t, referencePoint := referencePoint, effects := [] }
  | some brush =>
    let position := movePosition brush t.m_index
    let delta := moveDelta position
      ⟨curMousePoint.x - referencePoint.x, curMousePoint.y - referencePoint.y,
        curMousePoint.z - referencePoint.z⟩
    if delta.null then
      { proceed := true, tool := t, referencePoint := referencePoint, effects := [] }
    else
      let result := performMove brush t.m_index delta
      let t1 := { t with m_index := result.index }
      if result.index = -1 then
        { proceed := false, tool := t1, referencePoint := referencePoint
          effects := [Effect.performMove brush t.m_index delta] }
      else
        let referencePoint1 :=
          if result.moved then referencePoint.add delta else referencePoint
        { proceed := true, tool := t1, referencePoint := referencePoint1
          effects := [Effect.performMove brush t.m_index delta,
                      Effect.updateSelectedHandleFigures t1.m_brush t1.m_index] }

/-- Debug assertion of `doLeftDrag`. -/
def VertexTool.doLeftDragAssert (t : VertexTool) : Prop :=
  t.m_state = ToolState.DRAGGING ∧ t.m_brush ≠ none ∧ t.m_index ≠ -1

/-- `VertexTool::doEndLeftDrag`: commit the undo transaction, tear down the
selected figures, rebuild the unselected figure, clear the brush reference and
index, return to ACTIVE.  Asserts `m_state == DRAGGING`. -/
def VertexTool.doEndLeftDrag (t : VertexTool) : VertexTool × List Effect :=
  let (t1, e1) := t.deleteSelectedHandleFigures
  let (t2, e2) := t1.createHandleFigure
  ({ t2 with m_brush := none, m_index := -1, m_state := ToolState.ACTIVE },
    Effect.undoEnd :: (e1 ++ e2))

/-- Debug assertion of `doEndLeftDrag`. -/
def VertexTool.doEndLeftDragAssert (t : VertexTool) : Prop :=
  t.m_state = ToolState.DRAGGING

/-- The document/view queries `MapFrame::canDoCsgConvexMerge` and
`MapFrame::csgConvexMerge` consult, as one snapshot (each is one call into
`m_document` or `m_mapView` in the C++). -/
structure MapFrameEnv where
  hasSelectedBrushFaces : Bool
  selectedBrushFacesSize : Nat
  selectedNodesHasOnlyBrushes : Bool
  selectedNodesBrushCount : Nat
  vertexToolActive : Bool
  vertexToolCanDoCsgConvexMerge : Bool
  edgeToolActive : Bool
  edgeToolCanDoCsgConvexMerge : Bool
  faceToolActive : Bool
  faceToolCanDoCsgConvexMerge : Bool
deriving DecidableEq, Repr

/-- `MapFrame::canDoCsgConvexMerge`: more than one selected brush face, or a
brush-only node selection with more than one brush, or an active vertex, edge
or face tool that can itself perform the merge. -/
def MapFrame.canDoCsgConvexMerge (e : MapFrameEnv) : Bool :=
  (e.hasSelectedBrushFaces && e.selectedBrushFacesSize > 1)
  || (e.selectedNodesHasOnlyBrushes && e.selectedNodesBrushCount > 1)
  || (e.vertexToolActive && e.vertexToolCanDoCsgConvexMerge)
  || (e.edgeToolActive && e.edgeToolCanDoCsgConvexMerge)
  || (e.faceToolActive && e.faceToolCanDoCsgConvexMerge)

/-- Where `MapFrame::csgConvexMerge` forwards the command, `noAction` meaning
the body of the `if` was skipped (the operation was refused). -/
inductive MergeAction where
  | vertexToolMerge
  | edgeToolMerge
  | faceToolMerge
  | documentMerge
  | noAction
deriving DecidableEq, Repr

/-- `MapFrame::csgConvexMerge`: when enabled, dispatch to the first of the
vertex/edge/face tools that is active and can merge, else to the document;
when not enabled, do nothing. -/
def MapFrame.csgConvexMerge (e : MapFrameEnv) : MergeAction :=
  if MapFrame.canDoCsgConvexMerge e then
    if e.vertexToolActive && e.vertexToolCanDoCsgConvexMerge then
      MergeAction.vertexToolMerge
    else if e.edgeToolActive && e.edgeToolCanDoCsgConvexMerge then
      MergeAction.edgeToolMerge
    else if e.faceToolActive && e.faceToolCanDoCsgConvexMerge then
      MergeAction.faceToolMerge
    else
      MergeAction.documentMerge
  else
    MergeAction.noAction

/-- One palette lookup of `Palette::indexToRgb`: the three bytes at offsets
`index*3`, `index*3+1`, `index*3+2` of the palette data.  An out-of-bounds
read (undefined behaviour in the C++) is modelled as `none`. -/
def Palette.rgbAt (m_data : List Nat) (index : Nat) : Option (List Nat) :=
  match m_data.get? (index * 3), m_data.get? (index * 3 + 1),
      m_data.get? (index * 3 + 2) with
  | some r, some g, some b => some [r, g, b]
  | _, _, _ => none

/-- `Palette::indexToRgb`: for each pixel of the indexed image, write the
three palette bytes for its index into the RGB image.  The palette is the raw
byte list the `Palette` constructor read from the file (`m_size` is its
length); `pixelCount` is the image list's length.  `none` models a run that
performs an out-of-bounds palette read. -/
def Palette.indexToRgb (m_data : List Nat) (indexedImage : List Nat) :
    Option (List Nat) :=
  match indexedImage with
  | [] => some []
  | index :: rest =>
    match Palette.rgbAt m_data index, Palette.indexToRgb m_data rest with
    | some px, some tail => some (px ++ tail)
    | _, _ => none

/-- The assertion `index < m_size` of `Palette::indexToRgb`, over the whole
image. -/
def Palette.indexToRgbAssert (m_data : List Nat) (indexedImage : List Nat) : Prop :=
  ∀ index ∈ indexedImage, index < m_data.length

/-- C1: in state DRAGGING, when the grid-snapped delta is non-zero and the
Brush move operation returns the sentinel index -1 (handle no longer
addressable), `doLeftDrag` returns the abort result `false`, the reference
point is not advanced, and no handle-visual update is performed (the only
external call of the step is the move operation itself). -/
theorem doLeftDrag_abort_on_invalid_handle
    (movePosition : Brush → Int → Vec3) (moveDelta : Vec3 → Vec3 → Vec3)
    (performMove : Brush → Int → Vec3 → MoveResult)
    (t : VertexTool) (cur ref : Vec3) (b : Brush) (d : Vec3)
    (_hstate : t.m_state = ToolState.DRAGGING)
    (hbrush : t.m_brush = some b)
    (hd : moveDelta (movePosition b t.m_index)
        ⟨cur.x - ref.x, cur.y - ref.y, cur.z - ref.z⟩ = d)
    (hdnz : d.null = false)
    (hfail : (performMove b t.m_index d).index = -1) :
    (VertexTool.doLeftDrag movePosition moveDelta performMove t cur ref).proceed
        = false ∧
    (VertexTool.doLeftDrag movePosition moveDelta performMove t cur ref).referencePoint
        = ref ∧
    (VertexTool.doLeftDrag movePosition moveDelta performMove t cur ref).effects
        = [Effect.performMove b t.m_index d] ∧
    Effect.updateHandleFigure ∉
      (VertexTool.doLeftDrag movePosition moveDelta performMove t cur ref).effects ∧
    ∀ ob i, Effect.updateSelectedHandleFigures ob i ∉
      (VertexTool.doLeftDrag movePosition moveDelta performMove t cur ref).effects := by
  simp only [VertexTool.doLeftDrag, hbrush, hd, hdnz, hfail, Bool.false_eq_true,
    if_false, if_pos rfl, if_true]
  simp [hfail]

/-- C1 witness: a concrete DRAGGING step whose move operation reports index
-1 aborts without advancing the reference point or touching the visuals. -/
theorem doLeftDrag_abort_on_invalid_handle_witness :
    (VertexTool.doLeftDrag (fun _ _ => Vec3.zero) (fun _ d => d)
        (fun _ _ _ => MoveResult.mk (-1) false)
        (VertexTool.mk ToolState.DRAGGING (some (Brush.mk 0 true)) 5 false true true)
        (Vec3.mk 1 0 0) (Vec3.mk 0 0 0)).proceed = false ∧
    (VertexTool.doLeftDrag (fun _ _ => Vec3.zero) (fun _ d => d)
        (fun _ _ _ => MoveResult.mk (-1) false)
        (VertexTool.mk ToolState.DRAGGING (some (Brush.mk 0 true)) 5 false true true)
        (Vec3.mk 1 0 0) (Vec3.mk 0 0 0)).referencePoint = Vec3.mk 0 0 0 ∧
    (VertexTool.doLeftDrag (fun _ _ => Vec3.zero) (fun _ d => d)
        (fun _ _ _ => MoveResult.mk (-1) false)
        (VertexTool.mk ToolState.DRAGGING (some (Brush.mk 0 true)) 5 false true true)
        (Vec3.mk 1 0 0) (Vec3.mk 0 0 0)).effects
      = [Effect.performMove (Brush.mk 0 true) 5 (Vec3.mk 1 0 0)] ∧
    Effect.updateHandleFigure ∉
      (VertexTool.doLeftDrag (fun _ _ => Vec3.zero) (fun _ d => d)
        (fun _ _ _ => MoveResult.mk (-1) false)
        (VertexTool.mk ToolState.DRAGGING (some (Brush.mk 0 true)) 5 false true true)
        (Vec3.mk 1 0 0) (Vec3.mk 0 0 0)).effects ∧
    ∀ ob i, Effect.updateSelectedHandleFigures ob i ∉
      (VertexTool.doLeftDrag (fun _ _ => Vec3.zero) (fun _ d => d)
        (fun _ _ _ => MoveResult.mk (-1) false)
        (VertexTool.mk ToolState.DRAGGING (some (Brush.mk 0 true)) 5 false true true)
        (Vec3.mk 1 0 0) (Vec3.mk 0 0 0)).effects :=
  doLeftDrag_abort_on_invalid_handle _ _ _ _ _ _ _ _ rfl rfl rfl (by decide) (by decide)

/-- C2: in state DRAGGING with a non-zero snapped delta and a move operation
returning a valid index, the step succeeds: the active handle index becomes
the operation's returned index, the reference point is advanced by exactly the
applied snapped delta when `moved = true` and left unchanged when
`moved = false`, and the selected-handle figures are refreshed. -/
theorem doLeftDrag_advance_referencePoint
    (movePosition : Brush → Int → Vec3) (moveDelta : Vec3 → Vec3 → Vec3)
    (performMove : Brush → Int → Vec3 → MoveResult)
    (t : VertexTool) (cur ref : Vec3) (b : Brush) (d : Vec3) (r : MoveResult)
    (_hstate : t.m_state = ToolState.DRAGGING)
    (hbrush : t.m_brush = some b)
    (hd : moveDelta (movePosition b t.m_index)
        ⟨cur.x - ref.x, cur.y - ref.y, cur.z - ref.z⟩ = d)
    (hdnz : d.null = false)
    (hr : performMove b t.m_index d = r)
    (hidx : r.index ≠ -1) :
    VertexTool.doLeftDrag movePosition moveDelta performMove t cur ref =
      { proceed := true
        tool := { t with m_index := r.index }
        referencePoint := if r.moved then ref.add d else ref
        effects := [Effect.performMove b t.m_index d,
                    Effect.updateSelectedHandleFigures (some b) r.index] } := by
  subst hd
  subst hr
  simp [VertexTool.doLeftDrag, hbrush, hdnz, hidx]

/-- C2 witness: a concrete successful step with `moved = true` advances the
reference point by the snapped delta and stores the returned index 7. -/
theorem doLeftDrag_advance_referencePoint_witness :
    VertexTool.doLeftDrag (fun _ _ => Vec3.zero) (fun _ d => d)
        (fun _ _ _ => MoveResult.mk 7 true)
        (VertexTool.mk ToolState.DRAGGING (some (Brush.mk 0 true)) 5 false true true)
        (Vec3.mk 1 2 3) (Vec3.mk 0 0 0) =
      { proceed := true
        tool := VertexTool.mk ToolState.DRAGGING (some (Brush.mk 0 true)) 7
          false true true
        referencePoint := Vec3.mk 1 2 3
        effects := [Effect.performMove (Brush.mk 0 true) 5 (Vec3.mk 1 2 3),
                    Effect.updateSelectedHandleFigures (some (Brush.mk 0 true)) 7] } := by
  have h := doLeftDrag_advance_referencePoint (fun _ _ => Vec3.zero) (fun _ d => d)
    (fun _ _ _ => MoveResult.mk 7 true)
    (VertexTool.mk ToolState.DRAGGING (some (Brush.mk 0 true)) 5 false true true)
    (Vec3.mk 1 2 3) (Vec3.mk 0 0 0) (Brush.mk 0 true) (Vec3.mk 1 2 3)
    (MoveResult.mk 7 true) rfl rfl rfl (by decide) rfl (by decide)
  simpa using h

/-- C3: in state DRAGGING, when the grid-snapped delta is the zero vector the
step makes no external call at all (no move operation, no visual update),
returns `true` (continue) and leaves the tool and the reference point
unchanged. -/
theorem doLeftDrag_zero_delta_noop
    (movePosition : Brush → Int → Vec3) (moveDelta : Vec3 → Vec3 → Vec3)
    (performMove : Brush → Int → Vec3 → MoveResult)
    (t : VertexTool) (cur ref : Vec3) (b : Brush)
    (_hstate : t.m_state = ToolState.DRAGGING)
    (hbrush : t.m_brush = some b)
    (hd0 : (moveDelta (movePosition b t.m_index)
        ⟨cur.x - ref.x, cur.y - ref.y, cur.z - ref.z⟩).null = true) :
    VertexTool.doLeftDrag movePosition moveDelta performMove t cur ref =
      { proceed := true, tool := t, referencePoint := ref, effects := [] } := by
  simp [VertexTool.doLeftDrag, hbrush, hd0]

/-- C3 witness: a concrete DRAGGING step whose pointer has not left the
snapped position is a pure no-op returning continue. -/
theorem doLeftDrag_zero_delta_noop_witness :
    VertexTool.doLeftDrag (fun _ _ => Vec3.zero) (fun _ d => d)
        (fun _ _ _ => MoveResult.mk 0 true)
        (VertexTool.mk ToolState.DRAGGING (some (Brush.mk 0 true)) 5 false true true)
        (Vec3.mk 4 4 4) (Vec3.mk 4 4 4) =
      { proceed := true
        tool := VertexTool.mk ToolState.DRAGGING (some (Brush.mk 0 true)) 5
          false true true
        referencePoint := Vec3.mk 4 4 4
        effects := [] } :=
  doLeftDrag_zero_delta_noop (fun _ _ => Vec3.zero) (fun _ d => d)
    (fun _ _ _ => MoveResult.mk 0 true)
    (VertexTool.mk ToolState.DRAGGING (some (Brush.mk 0 true)) 5 false true true)
    (Vec3.mk 4 4 4) (Vec3.mk 4 4 4) (Brush.mk 0 true) rfl rfl (by decide)

/-- C9: in state DRAGGING with a non-zero snapped delta, `m_index` is
overwritten with the move operation's returned index on every path — on the
abort path included, so after an aborting step the stored index is the
sentinel -1 while the state is still DRAGGING (only `doEndLeftDrag` leaves
DRAGGING). -/
theorem doLeftDrag_index_overwrite
    (movePosition : Brush → Int → Vec3) (moveDelta : Vec3 → Vec3 → Vec3)
    (performMove : Brush → Int → Vec3 → MoveResult)
    (t : VertexTool) (cur ref : Vec3) (b : Brush) (d : Vec3)
    (hstate : t.m_state = ToolState.DRAGGING)
    (hbrush : t.m_brush = some b)
    (hd : moveDelta (movePosition b t.m_index)
        ⟨cur.x - ref.x, cur.y - ref.y, cur.z - ref.z⟩ = d)
    (hdnz : d.null = false) :
    (VertexTool.doLeftDrag movePosition moveDelta performMove t cur ref).tool.m_index
        = (performMove b t.m_index d).index ∧
    (VertexTool.doLeftDrag movePosition moveDelta performMove t cur ref).tool.m_state
        = ToolState.DRAGGING ∧
    ((performMove b t.m_index d).index = -1 →
      (VertexTool.doLeftDrag movePosition moveDelta performMove t cur ref).proceed
          = false ∧
      (VertexTool.doLeftDrag movePosition moveDelta performMove t cur ref).tool.m_index
          = -1) := by
  subst hd
  by_cases hidx : (performMove b t.m_index
      (moveDelta (movePosition b t.m_index)
        ⟨cur.x - ref.x, cur.y - ref.y, cur.z - ref.z⟩)).index = -1 <;>
    simp [VertexTool.doLeftDrag, hbrush, hdnz, hidx, hstate]

/-- C9 witness: after a concrete aborting step the stored index is -1 and the
state is still DRAGGING. -/
theorem doLeftDrag_index_overwrite_witness :
    (VertexTool.doLeftDrag (fun _ _ => Vec3.zero) (fun _ d => d)
        (fun _ _ _ => MoveResult.mk (-1) false)
        (VertexTool.mk ToolState.DRAGGING (some (Brush.mk 0 true)) 5 false true true)
        (Vec3.mk 1 0 0) (Vec3.mk 0 0 0)).tool.m_index = -1 ∧
    (VertexTool.doLeftDrag (fun _ _ => Vec3.zero) (fun _ d => d)
        (fun _ _ _ => MoveResult.mk (-1) false)
        (VertexTool.mk ToolState.DRAGGING (some (Brush.mk 0 true)) 5 false true true)
        (Vec3.mk 1 0 0) (Vec3.mk 0 0 0)).tool.m_state = ToolState.DRAGGING ∧
    (VertexTool.doLeftDrag (fun _ _ => Vec3.zero) (fun _ d => d)
        (fun _ _ _ => MoveResult.mk (-1) false)
        (VertexTool.mk ToolState.DRAGGING (some (Brush.mk 0 true)) 5 false true true)
        (Vec3.mk 1 0 0) (Vec3.mk 0 0 0)).proceed = false := by
  have h := doLeftDrag_index_overwrite (fun _ _ => Vec3.zero) (fun _ d => d)
    (fun _ _ _ => MoveResult.mk (-1) false)
    (VertexTool.mk ToolState.DRAGGING (some (Brush.mk 0 true)) 5 false true true)
    (Vec3.mk 1 0 0) (Vec3.mk 0 0 0) (Brush.mk 0 true) (Vec3.mk 1 0 0)
    rfl rfl rfl (by decide)
  exact ⟨(h.2.2 rfl).2, h.2.1, (h.2.2 rfl).1⟩

/-- C4 counterexample: with the tool in ACTIVE, a brush-set-changed
notification that carries no selected brush performs no refresh at all — the
refresh is not unconditional and does depend on which brushes the
notification carries. -/
theorem brushesDidChange_not_unconditional :
    (VertexTool.mk ToolState.ACTIVE none (-1) true false false).m_state
        = ToolState.ACTIVE ∧
    VertexTool.brushesDidChange
        (VertexTool.mk ToolState.ACTIVE none (-1) true false false)
        [Brush.mk 0 false] = [] ∧
    Effect.updateHandleFigure ∉
      VertexTool.brushesDidChange
        (VertexTool.mk ToolState.ACTIVE none (-1) true false false)
        [Brush.mk 0 false] := by
  refine ⟨rfl, rfl, ?_⟩
  simp [VertexTool.brushesDidChange]

/-- C4 amended: while the tool is in ACTIVE, SELECTED or DRAGGING, a
selection-changed notification unconditionally refreshes the aggregate
matching the state (the unselected-handle aggregate in ACTIVE, the
selected-handle and guide visuals in SELECTED/DRAGGING); a brush-set-changed
notification performs that same refresh only when its brush list contains at
least one selected brush, and performs no refresh otherwise. -/
theorem notification_refresh_amended (t : VertexTool) (brushes : List Brush)
    (h : t.m_state ≠ ToolState.INACTIVE) :
    VertexTool.selectionChanged t ≠ [] ∧
    (t.m_state = ToolState.ACTIVE →
      VertexTool.selectionChanged t = [Effect.updateHandleFigure]) ∧
    (t.m_state = ToolState.SELECTED ∨ t.m_state = ToolState.DRAGGING →
      VertexTool.selectionChanged t
        = [Effect.updateSelectedHandleFigures t.m_brush t.m_index]) ∧
    (brushes.any (fun b => b.selected) = true →
      VertexTool.brushesDidChange t brushes = VertexTool.selectionChanged t) ∧
    (brushes.any (fun b => b.selected) = false →
      VertexTool.brushesDidChange t brushes = []) := by
  rcases t with ⟨s, b, i, hf, shf, gf⟩
  cases s <;>
    simp_all [VertexTool.selectionChanged, VertexTool.brushesDidChange]

/-- C4 amended witness: concrete checks in ACTIVE — a selection change
refreshes the unselected aggregate; a brush change with a selected brush does
the same; one with only unselected brushes does nothing. -/
theorem notification_refresh_amended_witness :
    VertexTool.selectionChanged
        (VertexTool.mk ToolState.ACTIVE none (-1) true false false)
      = [Effect.updateHandleFigure] ∧
    VertexTool.brushesDidChange
        (VertexTool.mk ToolState.ACTIVE none (-1) true false false)
        [Brush.mk 0 true]
      = VertexTool.selectionChanged
          (VertexTool.mk ToolState.ACTIVE none (-1) true false false) ∧
    VertexTool.brushesDidChange
        (VertexTool.mk ToolState.ACTIVE none (-1) true false false)
        [Brush.mk 1 false] = [] := by
  have h := notification_refresh_amended
    (VertexTool.mk ToolState.ACTIVE none (-1) true false false)
    [Brush.mk 0 true] (by decide)
  have h2 := notification_refresh_amended
    (VertexTool.mk ToolState.ACTIVE none (-1) true false false)
    [Brush.mk 1 false] (by decide)
  exact ⟨h.2.1 rfl, by rw [h.2.2.2.1 (by decide)], h2.2.2.2.2 (by decide)⟩

/-- C5 counterexample: deactivating from SELECTED leaves the tool INACTIVE
with the brush reference still set and the handle index still 0 — the session
references are not cleared on deactivation. -/
theorem deactivated_stale_refs_cex :
    ((VertexTool.mk ToolState.SELECTED (some (Brush.mk 0 true)) 0
        false true true).deactivated).1.m_state = ToolState.INACTIVE ∧
    ((VertexTool.mk ToolState.SELECTED (some (Brush.mk 0 true)) 0
        false true true).deactivated).1.m_brush = some (Brush.mk 0 true) ∧
    ((VertexTool.mk ToolState.SELECTED (some (Brush.mk 0 true)) 0
        false true true).deactivated).1.m_index = 0 := by
  decide

/-- C5 amended: `deactivated` always leaves the tool in INACTIVE but preserves
`m_brush` and `m_index` rather than clearing them; the brush reference and
handle index are cleared only by the constructor, by `leftMouseUp` when it
fires from SELECTED, and by `doEndLeftDrag` — so "INACTIVE implies cleared"
holds only when deactivation happens from ACTIVE with the session references
already cleared, not from SELECTED or DRAGGING. -/
theorem deactivated_state_amended (t : VertexTool) :
    (t.deactivated).1.m_state = ToolState.INACTIVE ∧
    (t.deactivated).1.m_brush = t.m_brush ∧
    (t.deactivated).1.m_index = t.m_index ∧
    VertexTool.init.m_brush = none ∧
    VertexTool.init.m_index = -1 ∧
    (t.leftMouseUp).2.1.m_brush
      = (if t.m_state = ToolState.SELECTED then none else t.m_brush) ∧
    (t.leftMouseUp).2.1.m_index
      = (if t.m_state = ToolState.SELECTED then -1 else t.m_index) ∧
    (t.doEndLeftDrag).1.m_brush = none ∧
    (t.doEndLeftDrag).1.m_index = -1 := by
  rcases t with ⟨s, b, i, hf, shf, gf⟩
  cases s <;> cases hf <;> cases shf <;> cases gf <;>
    simp [VertexTool.deactivated, VertexTool.deleteHandleFigure,
      VertexTool.leftMouseUp, VertexTool.deleteSelectedHandleFigures,
      VertexTool.createHandleFigure, VertexTool.doEndLeftDrag, VertexTool.init]

/-- C6: with no handle hit, `doBeginLeftDrag` returns not-started, opens no
undo transaction and leaves the tool unchanged (the empty effect trace in
particular contains no `undoBegin`).  On a handle hit it records the hit's
brush, index and 3D hit point, opens exactly one undo transaction carrying the
operation's undo name, and transitions to DRAGGING returning started. -/
theorem doBeginLeftDrag_spec (undoName : String) (t : VertexTool) :
    (VertexTool.doBeginLeftDrag undoName none t =
      { started := false, tool := t, initialPoint := none, effects := [] }) ∧
    ∀ h : Hit,
      (VertexTool.doBeginLeftDrag undoName (some h) t).started = true ∧
      (VertexTool.doBeginLeftDrag undoName (some h) t).tool.m_brush
          = some h.brush ∧
      (VertexTool.doBeginLeftDrag undoName (some h) t).tool.m_index = h.index ∧
      (VertexTool.doBeginLeftDrag undoName (some h) t).initialPoint
          = some h.hitPoint ∧
      (VertexTool.doBeginLeftDrag undoName (some h) t).tool.m_state
          = ToolState.DRAGGING ∧
      (VertexTool.doBeginLeftDrag undoName (some h) t).effects.countP
          (fun e => match e with | Effect.undoBegin _ => true | _ => false) = 1 ∧
      (∀ s, Effect.undoBegin s ∈
          (VertexTool.doBeginLeftDrag undoName (some h) t).effects →
        s = undoName) := by
  refine ⟨rfl, fun h => ?_⟩
  rcases t with ⟨s, b, i, hf, shf, gf⟩
  cases hf <;>
    simp [VertexTool.doBeginLeftDrag, VertexTool.deleteHandleFigure,
      List.countP_cons, List.countP_nil]

/-- C7's enabling condition as the claim states it: the selection contains at
least two brushes, or at least two selected brush faces, or one of the active
vertex/edge/face tools reports it can itself perform the merge. -/
def MapFrame.mergeInputsAvailable (e : MapFrameEnv) : Prop :=
  e.selectedNodesBrushCount > 1 ∨ e.selectedBrushFacesSize > 1 ∨
  (e.vertexToolActive = true ∧ e.vertexToolCanDoCsgConvexMerge = true) ∨
  (e.edgeToolActive = true ∧ e.edgeToolCanDoCsgConvexMerge = true) ∨
  (e.faceToolActive = true ∧ e.faceToolCanDoCsgConvexMerge = true)

instance (e : MapFrameEnv) : Decidable (MapFrame.mergeInputsAvailable e) := by
  unfold MapFrame.mergeInputsAvailable
  infer_instance

/-- C7: the CSG convex-merge command is enabled only when the selection
contains at least two brushes, at least two selected brush faces, or an
active vertex/edge/face tool that can itself merge; with fewer inputs
`csgConvexMerge` is refused as a no-op. -/
theorem csgConvexMerge_requires_two_inputs (e : MapFrameEnv) :
    (MapFrame.canDoCsgConvexMerge e = true → MapFrame.mergeInputsAvailable e) ∧
    (¬ MapFrame.mergeInputsAvailable e →
      MapFrame.csgConvexMerge e = MergeAction.noAction) := by
  have himp : MapFrame.canDoCsgConvexMerge e = true →
      MapFrame.mergeInputsAvailable e := by
    intro h
    simp only [MapFrame.canDoCsgConvexMerge, Bool.or_eq_true,
      Bool.and_eq_true, decide_eq_true_eq] at h
    unfold MapFrame.mergeInputsAvailable
    tauto
  refine ⟨himp, fun h => ?_⟩
  have hcan : MapFrame.canDoCsgConvexMerge e = false := by
    cases hc : MapFrame.canDoCsgConvexMerge e
    · rfl
    · exact absurd (himp hc) h
  simp [MapFrame.csgConvexMerge, hcan]

/-- C7 witness: a brush-only selection of two brushes satisfies the enabling
condition, and an empty selection with no active tool is refused as a
no-op. -/
theorem csgConvexMerge_requires_two_inputs_witness :
    MapFrame.mergeInputsAvailable
      (MapFrameEnv.mk false 0 true 2 false false false false false false) ∧
    MapFrame.csgConvexMerge
      (MapFrameEnv.mk false 0 false 0 false false false false false false)
      = MergeAction.noAction :=
  ⟨(csgConvexMerge_requires_two_inputs
      (MapFrameEnv.mk false 0 true 2 false false false false false false)).1
      (by decide),
   (csgConvexMerge_requires_two_inputs
      (MapFrameEnv.mk false 0 false 0 false false false false false false)).2
      (by decide)⟩

/-- C8 counterexample: calling `doEndLeftDrag` with the tool in ACTIVE (not
DRAGGING) fails the debug assertion, yet the release-build body still runs —
it commits the undo transaction (`undoEnd` in the effect trace), so the call
is not a no-op on the document as the claim states. -/
theorem assert_violation_not_noop_cex :
    ¬ (VertexTool.mk ToolState.ACTIVE none (-1) true false false).doEndLeftDragAssert ∧
    Effect.undoEnd ∈
      ((VertexTool.mk ToolState.ACTIVE none (-1) true false false).doEndLeftDrag).2 := by
  refine ⟨fun h => ?_, by decide⟩
  simp [VertexTool.doEndLeftDragAssert] at h

/-- C8 amended: a state-machine protocol violation fails the operation's
debug assertion (fatal in debug builds), but in release builds the assertion
compiles away and the operation body executes regardless — e.g.
`doEndLeftDrag` outside DRAGGING still commits the undo transaction and
forces the tool to ACTIVE — so such calls are not no-ops. -/
theorem assert_violation_release_behavior (t : VertexTool)
    (h : t.m_state ≠ ToolState.DRAGGING) :
    ¬ t.doEndLeftDragAssert ∧
    Effect.undoEnd ∈ (t.doEndLeftDrag).2 ∧
    (t.doEndLeftDrag).1.m_state = ToolState.ACTIVE := by
  refine ⟨h, ?_, ?_⟩ <;>
    rcases t with ⟨s, b, i, hf, shf, gf⟩ <;>
    cases hf <;> cases shf <;> cases gf <;>
      simp [VertexTool.doEndLeftDrag, VertexTool.deleteSelectedHandleFigures,
        VertexTool.createHandleFigure, VertexTool.deleteHandleFigure]

/-- C8 amended witness: the concrete ACTIVE-state misuse of `doEndLeftDrag`
fails its assertion yet still emits the undo commit. -/
theorem assert_violation_release_behavior_witness :
    ¬ (VertexTool.mk ToolState.ACTIVE none (-1) true false false).doEndLeftDragAssert ∧
    Effect.undoEnd ∈
      ((VertexTool.mk ToolState.ACTIVE none (-1) true false false).doEndLeftDrag).2 ∧
    ((VertexTool.mk ToolState.ACTIVE none (-1) true false
        false).doEndLeftDrag).1.m_state = ToolState.ACTIVE :=
  assert_violation_release_behavior
    (VertexTool.mk ToolState.ACTIVE none (-1) true false false) (by decide)

/-- Skipping the three bytes of one emitted pixel in the RGB output list. -/
theorem cons3_get (a b c : Nat) (l : List Nat) (k : Nat) :
    (a :: b :: c :: l).get? (k + 3) = l.get? k := rfl

/-- C10 counterexample: a 4-byte palette with the single-pixel image `[3]`
satisfies the asserted precondition `index < S` (3 < 4), yet the palette read
for that pixel touches offsets 9..11 — outside the 4-byte buffer (the run is
modelled as `none`), and `3·index + 2 < S` fails. -/
theorem indexToRgb_oob_cex :
    Palette.indexToRgbAssert [10, 20, 30, 40] [3] ∧
    Palette.indexToRgb [10, 20, 30, 40] [3] = none ∧
    ¬ (3 * 3 + 2 < [10, 20, 30, 40].length) := by
  refine ⟨?_, rfl, by decide⟩
  unfold Palette.indexToRgbAssert
  decide

/-- C10 amended: each output pixel receives the three palette bytes at
offsets `3·index`, `3·index + 1`, `3·index + 2`; those reads stay within the
palette buffer provided `3·index + 2 < S` for every pixel of the image — a
strictly stronger precondition than the asserted `index < S`, which does not
by itself keep the reads in bounds. -/
theorem indexToRgb_bounds_amended (m_data : List Nat) (indexedImage : List Nat)
    (hbound : ∀ index ∈ indexedImage, index * 3 + 2 < m_data.length) :
    ∃ rgbImage, Palette.indexToRgb m_data indexedImage = some rgbImage ∧
      rgbImage.length = 3 * indexedImage.length ∧
      ∀ i index, indexedImage.get? i = some index →
        ∀ j, j < 3 → rgbImage.get? (3 * i + j) = m_data.get? (index * 3 + j) := by
  induction indexedImage with
  | nil =>
    refine ⟨[], rfl, rfl, fun i index hi => ?_⟩
    simp at hi
  | cons index rest ih =>
    have hidx : index * 3 + 2 < m_data.length := hbound index (List.mem_cons_self _ _)
    have h0 : index * 3 < m_data.length := by omega
    have h1 : index * 3 + 1 < m_data.length := by omega
    have e0 : m_data.get? (index * 3) = some (m_data.get ⟨index * 3, h0⟩) :=
      List.get?_eq_get h0
    have e1 : m_data.get? (index * 3 + 1) = some (m_data.get ⟨index * 3 + 1, h1⟩) :=
      List.get?_eq_get h1
    have e2 : m_data.get? (index * 3 + 2) = some (m_data.get ⟨index * 3 + 2, hidx⟩) :=
      List.get?_eq_get hidx
    obtain ⟨tail, htail, hlen, hget⟩ :=
      ih (fun x hx => hbound x (List.mem_cons_of_mem _ hx))
    refine ⟨m_data.get ⟨index * 3, h0⟩ :: m_data.get ⟨index * 3 + 1, h1⟩ ::
      m_data.get ⟨index * 3 + 2, hidx⟩ :: tail, ?_, ?_, ?_⟩
    · have f0 : m_data[index * 3]? = some (m_data.get ⟨index * 3, h0⟩) := by
        rw [← List.get?_eq_getElem?]
        exact e0
      have f1 : m_data[index * 3 + 1]? = some (m_data.get ⟨index * 3 + 1, h1⟩) := by
        rw [← List.get?_eq_getElem?]
        exact e1
      have f2 : m_data[index * 3 + 2]? = some (m_data.get ⟨index * 3 + 2, hidx⟩) := by
        rw [← List.get?_eq_getElem?]
        exact e2
      simp [Palette.indexToRgb, Palette.rgbAt, f0, f1, f2, htail,
        List.get?_eq_getElem?, List.get_eq_getElem]
    · simp only [List.length_cons, hlen]
      omega
    · intro i idx hi j hj
      cases i with
      | zero =>
        have hix : index = idx := by
          simpa using hi
        subst hix
        interval_cases j
        · simp [e0]
        · simp [e1]
        · simp [e2]
      | succ n =>
        have hi2 : rest.get? n = some idx := by
          simpa using hi
        rw [show 3 * (n + 1) + j = (3 * n + j) + 3 by ring, cons3_get]
        exact hget n idx hi2 j hj

/-- C10 amended witness: a 6-byte palette with the image `[1, 0]` satisfies
the amended bound and expands to a fully in-bounds 6-byte RGB image. -/
theorem indexToRgb_bounds_amended_witness :
    ∃ rgbImage, Palette.indexToRgb [1, 2, 3, 4, 5, 6] [1, 0] = some rgbImage ∧
      rgbImage.length = 3 * [1, 0].length ∧
      ∀ i index, [1, 0].get? i = some index →
        ∀ j, j < 3 →
          rgbImage.get? (3 * i + j) = [1, 2, 3, 4, 5, 6].get? (index * 3 + j) :=
  indexToRgb_bounds_amended [1, 2, 3, 4, 5, 6] [1, 0] (by decide)
